import Mathlib

/-!
# A shallow embedding of the nix-compiler evaluator core

This file embeds the evaluator core of the `nix-compiler` repository
(`src/expr.rs`, `src/scope.rs`, `src/value.rs`, `src/value/lazy.rs`,
`src/value/var.rs`) and proves properties of the embedded definitions.

Modelling decisions, used throughout:

* Rust's shared mutable cells (`Rc<RefCell<NixValue>>` for attribute-set
  cells, `Rc<RefCell<LazyNixValue>>` for thunk cells) become an explicit
  heap: `EvalState` holds two stores indexed by `Nat` identifiers.
  Rust pointer equality of cells (`Rc::as_ptr` comparison, as in
  `impl PartialEq for NixVar`) becomes equality of identifiers.
* `Rc<Scope>` is immutable once built (its `variables` field is a pointer
  to a mutable attribute-set cell), so scopes are embedded as an inductive
  tree `ScopeT` carrying the identifier of their `variables` cell.  The
  `file` and `backtrace` fields of `Scope` are omitted: `file` only feeds
  source-span construction, and spans are modelled structurally (below);
  `backtrace` is never read by the embedded code paths.
* Source spans (`NixSpan::from_ast_node`) are modelled structurally: the
  span of a node is the node itself (`NixSpan.ofExpr e`, …).  Two
  occurrences of the same ident `x` therefore get the same span; this is
  exactly the granularity the claims need ("both labels point at `x`").
* Rust `todo!()` / `unimplemented!()` / `.unwrap()` / `.expect(..)`
  panics become the `Outcome.panic` outcome; `Err(..)` results become
  `Outcome.err`.  Recursion is bounded by explicit fuel; running out of
  fuel is the distinct outcome `Outcome.timeout` (the Rust code simply
  recurses on the host stack).
* `f64` floats are carried as opaque IEEE-754 bit patterns (`Nat`); no
  claim exercises float arithmetic or float equality.
-/

set_option maxRecDepth 10000
set_option maxHeartbeats 2000000

namespace NixCompiler

/-! ## Syntax

A deep embedding of the `rnix` AST fragment consumed by `visit_expr`
(`src/expr.rs`).  The `Path` expression and URI literals are represented
only to the extent the evaluator handles them (`Uri` is an error; `Path`
expressions are not needed by any claim and are omitted). -/

/-- Binary operator kinds, mirroring `rnix::ast::BinOpKind` as matched in
`visit_binop`. -/
inductive BinOpKind where
  | concat | update | add | sub | mul | div
  | and_ | equal | implication | less | lessOrEq | more | moreOrEq
  | notEqual | or_
deriving Repr, DecidableEq

/-- Unary operator kinds (`rnix::ast::UnaryOpKind`). -/
inductive UnaryOpKind where
  | invert | negate
deriving Repr, DecidableEq

mutual

/-- Attribute-name syntax: bare identifier, string literal (with
interpolation), or dynamic `${expr}` — `rnix::ast::Attr`. -/
inductive Attr where
  | ident (name : String)
  | str (parts : List StrPart)
  | dynamic (e : Expr)

/-- One chunk of a string literal: raw text or an interpolated expression. -/
inductive StrPart where
  | lit (s : String)
  | interp (e : Expr)

/-- One entry of a pattern parameter: `name` possibly with a `? default`. -/
inductive PatEntry where
  | mk (name : String) (default : Option Expr)

/-- Lambda parameter shape, mirroring `NixLambdaParam` in `src/value.rs`:
an identifier, or a destructuring pattern (entries, optional `...`,
optional `@` binding). -/
inductive NixLambdaParam where
  | ident (name : String)
  | pattern (entries : List PatEntry) (ellipsis : Bool) (bind : Option String)

/-- A binding entry of a `let`/attrset body — `rnix::ast::Entry`: either
`inherit (from?) a b c;` or an attrpath-value binding `a.b.c = e;`. -/
inductive Entry where
  | inheritE (fromE : Option Expr) (attrs : List Attr)
  | attrpathValue (path : List Attr) (value : Expr)

/-- The expression syntax dispatched by `visit_expr` in `src/expr.rs`. -/
inductive Expr where
  | apply (lambda arg : Expr)
  | assert_ (cond : Expr) (body : Option Expr)
  | attrSet (isRec : Bool) (entries : List Entry)
  | binOp (op : BinOpKind) (lhs rhs : Expr)
  | error
  | hasAttr (e : Expr) (path : List Attr)
  | ident (name : String)
  | ifElse (cond body elseBody : Expr)
  | lambda (param : NixLambdaParam) (body : Expr)
  | legacyLet
  | letIn (entries : List Entry) (body : Expr)
  | list (items : List Expr)
  | litInt (n : Int)
  | litFloat (bits : Nat)
  | litUri
  | paren (e : Expr)
  | select (e : Expr) (path : List Attr) (default : Option Expr)
  | str (parts : List StrPart)
  | unaryOp (op : UnaryOpKind) (e : Expr)
  | with_ (namespace_ body : Expr)

end

/-! ## Diagnostics

`NixSpan`, `NixBacktrace`, `NixLabel*` and `NixError` live in the
repository's `src/result.rs`, which is not part of the provided sources;
only their use sites are.  They are modelled from the spec (§3.5, §4.7):
a span is the syntax node it covers, a backtrace is a linked list of
spans, an error carries a message, labelled spans and a backtrace. -/

/-- Modelled from the spec: a source span, identified structurally by the
syntax node it covers (`NixSpan::from_ast_node` on that node). -/
inductive NixSpan where
  | ofExpr (e : Expr)
  | ofEntry (e : Entry)
  | ofAttr (a : Attr)
  | ofInheritFrom (e : Expr)
  | root

/-- Modelled from the spec (§3.5): a backtrace frame is a (span, parent)
pair — `NixBacktrace(Rc<NixSpan>, Option<Rc<NixBacktrace>>)`. -/
inductive NixBacktrace where
  | mk (span : NixSpan) (parent : Option NixBacktrace)

def NixBacktrace.span : NixBacktrace → NixSpan
  | .mk s _ => s

def NixBacktrace.parent : NixBacktrace → Option NixBacktrace
  | .mk _ p => p

/-- Label kinds (§4.7): Error / Help / Info. -/
inductive NixLabelKind where
  | error | help | info

/-- Label messages (§4.7 taxonomy), plus the `Empty` and `Custom` variants
used by `src/value/lazy.rs` and `src/expr.rs`. -/
inductive NixLabelMessage where
  | variableNotFound
  | attributeMissing
  | assertionFailed
  | typeError
  | infiniteRecursion
  | missingRequiredArgument
  | unusedArgument
  | unimplemented
  | custom (text : String)
  | empty

/-- A labelled span (§4.7). -/
structure NixLabel where
  span : NixSpan
  message : NixLabelMessage
  kind : NixLabelKind

/-- Modelled from the spec (§4.7): an error with a message, labels, and
the accumulated backtrace. -/
structure NixError where
  message : String
  labels : List NixLabel
  backtrace : Option NixBacktrace

/-- Modelled from the spec (§7, "Unimplemented — opted-out syntax"):
`NixError::todo(span, message, backtrace)` as used all over
`src/expr.rs` for not-yet-handled constructs. -/
def NixError.todo (span : NixSpan) (message : String)
    (backtrace : Option NixBacktrace) : NixError :=
  { message := message
    labels := [⟨span, .unimplemented, .error⟩]
    backtrace := backtrace }

/-- Modelled from the spec: `NixError::from_message(label, message)` as
used by `visit_ident`, `visit_assert`, `insert_entry_to_attrset`. -/
def NixError.from_message (label : NixLabel) (message : String) : NixError :=
  { message := message, labels := [label], backtrace := none }

/-- Modelled from the spec: `backtrace.to_labeled_error(labels, message)`
as used by `resolve_attr_path` in `src/scope.rs`. -/
def NixBacktrace.to_labeled_error (bt : NixBacktrace) (labels : List NixLabel)
    (message : String) : NixError :=
  { message := message, labels := labels, backtrace := some bt }

/-! ## The value domain

`NixValue` from `src/value.rs`.  `NixValueWrapped = Rc<RefCell<NixValue>>`
becomes a value-cell identifier (`Nat` index into `EvalState.vals`) and
`NixVar = Rc<RefCell<LazyNixValue>>` becomes a thunk-cell identifier
(`Nat` index into `EvalState.vars`).  An attribute set maps strings to
thunk-cell identifiers (`HashMap<String, NixVar>`; the list order model
fixes an iteration order, which the source leaves arbitrary and which no
embedded operation depends on). -/

/-- An attribute set: `NixAttrSet = HashMap<String, NixVar>`, with thunk
cells as identifiers.  Keys are unique (maintained by `mapInsert`). -/
abbrev AttrMap := List (String × Nat)

/-- The builtin callables registered by the host.  The builtin library is
outside the provided core sources; only `throw` is needed by the claims.
Modelled from the spec (§4.6): a builtin receives
`(backtrace, caller scope, argument expression)`. -/
inductive NixBuiltin where
  | throwB

/-- The scope chain from `src/scope.rs`: `variables` is a pointer to a
mutable attribute-set cell, `parent` the enclosing scope.  (`file` and
`backtrace` fields omitted; see the header.) -/
inductive ScopeT where
  | mk (varsCell : Nat) (parent : Option ScopeT)

def ScopeT.varsCell : ScopeT → Nat
  | .mk v _ => v

def ScopeT.parent : ScopeT → Option ScopeT
  | .mk _ p => p

/-- Embedding of `NixValue` from `src/value.rs`: the closed sum of the nine value
kinds.  `Lambda` carries its captured scope, parameter shape and body
(`NixLambda`); `Float` is an opaque bit pattern. -/
inductive NixValue where
  | attrSet (m : AttrMap)
  | bool (b : Bool)
  | builtin (b : NixBuiltin)
  | float (bits : Nat)
  | int (n : Int)
  | lambda (scope : ScopeT) (param : NixLambdaParam) (body : Expr)
  | list (xs : List Nat)
  | null
  | path (p : String)
  | string (s : String)

/-- The one-shot closures stored in `LazyNixValue::Eval` cells,
defunctionalised.  The evaluator creates exactly two shapes of them, both
in `insert_entry_to_attrset` (`src/expr.rs`): the `inherit (from) a;`
lookup and the plain `inherit a;` re-lookup.  Each carries the spans its
error labels use (captured `attr_node` / `from_expr` nodes). -/
inductive EvalK where
  | inheritFrom (fromVar : Nat) (attr : String) (attrSpan fromSpan : NixSpan)
  | inheritScope (attr : String) (attrSpan : NixSpan)

/-- Embedding of `LazyNixValue` from `src/value/lazy.rs`: the four thunk states. -/
inductive LazyVal where
  | concrete (v : Nat)
  | pending (bt : NixBacktrace) (scope : ScopeT) (e : Expr)
  | eval (bt : NixBacktrace) (scope : ScopeT) (k : EvalK)
  | resolving (bt : NixBacktrace)

/-- The heap: the two stores of shared mutable cells, with allocation
counters.  Each store is a write log read through `storeLookup` (the most
recent entry for an identifier wins): entry `(j, v)` in `vals` is a write
to the value cell behind `Rc<RefCell<NixValue>>` number `j`, and likewise
`vars` for `Rc<RefCell<LazyNixValue>>` thunk cells. -/
structure EvalState where
  vals : List (Nat × NixValue)
  vars : List (Nat × LazyVal)
  nextVal : Nat
  nextVar : Nat

/-- Read a cell from a write log: the most recent write wins. -/
def storeLookup {α : Type} : List (Nat × α) → Nat → Option α
  | [], _ => none
  | (k, v) :: rest, j => if k = j then some v else storeLookup rest j

/-- The current content of value cell `j` (dereferencing the
`Rc<RefCell<NixValue>>`). -/
def getVal (s : EvalState) (j : Nat) : Option NixValue := storeLookup s.vals j

/-- The current content of thunk cell `j` (dereferencing the
`Rc<RefCell<LazyNixValue>>`). -/
def getVar (s : EvalState) (j : Nat) : Option LazyVal := storeLookup s.vars j

/-- The result of one evaluator operation: a success (`Ok` in Rust), a
`NixError` (`Err`), a Rust panic (`todo!()` and friends), or fuel
exhaustion (the embedding's bound on host-stack recursion). -/
inductive ROut (α : Type) where
  | ok (a : α)
  | err (e : NixError)
  | panic (msg : String)
  | timeout

/-- The result type of `visit_expr` and friends (`NixResult` =
`Result<NixValueWrapped, NixError>`): on success, a value-cell id. -/
abbrev Outcome := ROut Nat

/-- The `?` operator: thread the state through on success, propagate
errors, panics and fuel exhaustion. -/
def rbind {α β : Type} :
    EvalState × ROut α → (EvalState → α → EvalState × ROut β) → EvalState × ROut β
  | (s, .ok a), f => f s a
  | (s, .err e), _ => (s, .err e)
  | (s, .panic m), _ => (s, .panic m)
  | (s, .timeout), _ => (s, .timeout)

/-! ## Heap primitives -/

/-- Allocate a fresh value cell (`NixValue::wrap`). -/
def allocVal (s : EvalState) (v : NixValue) : EvalState × Nat :=
  ({ s with vals := (s.nextVal, v) :: s.vals, nextVal := s.nextVal + 1 },
    s.nextVal)

/-- Overwrite a value cell (`*cell.borrow_mut() = …` / in-place mutation
of the attrset behind it). -/
def setVal (s : EvalState) (i : Nat) (v : NixValue) : EvalState :=
  { s with vals := (i, v) :: s.vals }

/-- Allocate a fresh thunk cell (`LazyNixValue::wrap_var`). -/
def allocVar (s : EvalState) (lv : LazyVal) : EvalState × Nat :=
  ({ s with vars := (s.nextVar, lv) :: s.vars, nextVar := s.nextVar + 1 },
    s.nextVar)

/-- Overwrite a thunk cell (`mem::replace` / `*this.borrow_mut() = …`). -/
def setVar (s : EvalState) (i : Nat) (lv : LazyVal) : EvalState :=
  { s with vars := (i, lv) :: s.vars }

/-- Embedding of `HashMap::get` on an attribute map. -/
def mapLookup : AttrMap → String → Option Nat
  | [], _ => none
  | (k, v) :: rest, key => if k = key then some v else mapLookup rest key

/-- Embedding of `HashMap::insert`: returns the updated map and the displaced binding
if any. -/
def mapInsert : AttrMap → String → Nat → AttrMap × Option Nat
  | [], key, v => ([(key, v)], none)
  | (k, old) :: rest, key, v =>
    if k = key then ((k, v) :: rest, some old)
    else
      let (rest', displaced) := mapInsert rest key v
      ((k, old) :: rest', displaced)

/-! ## Value operations (`src/value.rs`) -/

/-- Embedding of `NixValue::as_bool`. -/
def NixValue.as_bool : NixValue → Option Bool
  | .bool b => some b
  | _ => none

/-- Embedding of `NixValue::as_int`. -/
def NixValue.as_int : NixValue → Option Int
  | .int n => some n
  | _ => none

/-- Embedding of `NixValue::as_list`. -/
def NixValue.as_list : NixValue → Option (List Nat)
  | .list xs => some xs
  | _ => none

/-- Embedding of `AsAttrSet::as_attr_set` for `NixValue`. -/
def NixValue.as_attr_set : NixValue → Option AttrMap
  | .attrSet m => some m
  | _ => none

/-- Embedding of `NixValue::is_attr_set`. -/
def NixValue.is_attr_set : NixValue → Bool
  | .attrSet _ => true
  | _ => false

/-- Embedding of `AsString::as_string` for `NixValue` (`src/value.rs`): the partial
string coercion (`false → ""`, `true → "1"`, `null → ""`, paths and
strings to their text; everything else fails). -/
def NixValue.as_string : NixValue → Option String
  | .attrSet _ => none
  | .bool false => some ""
  | .bool true => some "1"
  | .null => some ""
  | .path p => some p
  | .string s => some s
  | _ => none

/-- Embedding of `HashMap` equality as invoked by the derived `PartialEq` on
`NixValue::AttrSet`: same size, and every key maps to an equal (that is,
pointer-equal, see `NixVar`'s `PartialEq`) thunk cell. -/
def mapBEq (m₁ m₂ : AttrMap) : Bool :=
  m₁.length == m₂.length &&
    m₁.all fun kv => mapLookup m₂ kv.1 == some kv.2

/-- The derived `PartialEq` on `NixValue`, as used by `visit_binop` for
`==` / `!=`.  Thunk cells (`NixVar`) compare by pointer equality
(`src/value/var.rs`), here identifier equality.  Lambdas and builtins
compare by the identity of their captured pieces; a lambda value's
captured scope is a fresh child allocated at `visit_lambda` time, so
scope equality coincides with creation identity, and the parameter/body
comparison (node identity in `rnix`) is subsumed by it.  Floats compare
by bit pattern (the claims never compare floats, where IEEE `NaN`/`-0.0`
would differ). -/
def NixValue.beq : NixValue → NixValue → Bool
  | .attrSet m₁, .attrSet m₂ => mapBEq m₁ m₂
  | .bool b₁, .bool b₂ => b₁ == b₂
  | .builtin .throwB, .builtin .throwB => true
  | .float f₁, .float f₂ => f₁ == f₂
  | .int n₁, .int n₂ => n₁ == n₂
  | .lambda (.mk v₁ _) _ _, .lambda (.mk v₂ _) _ _ => v₁ == v₂
  | .list xs₁, .list xs₂ => xs₁ == xs₂
  | .null, .null => true
  | .path p₁, .path p₂ => p₁ == p₂
  | .string s₁, .string s₂ => s₁ == s₂
  | _, _ => false

/-! ## Scope operations (`src/scope.rs`) -/

/-- Embedding of `Scope::get_variable`: look the name up in this scope's `variables`
attrset, falling back through the parent chain.  (The source unwraps the
`variables` cell as an attrset; every scope is built with one.) -/
def get_variable (s : EvalState) : ScopeT → String → Option Nat
  | .mk vid parent, name =>
    match getVal s vid with
    | some (.attrSet m) =>
      match mapLookup m name with
      | some var => some var
      | none =>
        match parent with
        | some p => get_variable s p name
        | none => none
    | _ =>
      match parent with
      | some p => get_variable s p name
      | none => none

/-- Embedding of `Scope::set_variable`: insert into this scope's own `variables`
attrset, returning the displaced thunk if any.  (Unreachable non-attrset
cells are left unchanged; the source unwraps.) -/
def set_variable (s : EvalState) (sc : ScopeT) (name : String) (var : Nat) :
    EvalState × Option Nat :=
  match getVal s sc.varsCell with
  | some (.attrSet m) =>
    let (m', displaced) := mapInsert m name var
    (setVal s sc.varsCell (.attrSet m'), displaced)
  | _ => (s, none)

/-- Embedding of `Scope::new_child`: a fresh scope frame with an empty `variables`
attrset, linked to its parent.  Allocates the `variables` cell. -/
def new_child (s : EvalState) (sc : ScopeT) : EvalState × ScopeT :=
  let (s₁, vid) := allocVal s (.attrSet [])
  (s₁, .mk vid (some sc))

/-- Embedding of `Scope::new_child_from`: a frame whose `variables` IS the given
attrset cell (the `with` construct). -/
def new_child_from (sc : ScopeT) (varsCell : Nat) : ScopeT :=
  .mk varsCell (some sc)

/-- Embedding of `Scope::new_backtrace`: push one frame spanning `node`. -/
def new_backtrace (bt : NixBacktrace) (span : NixSpan) : NixBacktrace :=
  .mk span (some bt)

/-! ## Small helpers for lambda application -/

/-- Embedding of `Vec::swap_remove(i)`: replace element `i` with the last element and
shorten by one. -/
def swapRemove (l : List String) (i : Nat) : List String :=
  match l.getLast? with
  | none => l
  | some last => (l.set i last).dropLast

/-- The unused-keys bookkeeping of `visit_apply` / `NixLambda::call`:
`unused.iter().position(|&key| key == varname)` followed by
`swap_remove`. -/
def swapRemoveFirst (l : List String) (name : String) : List String :=
  match l.findIdx? (· == name) with
  | some i => swapRemove l i
  | none => l

/-- Embedding of `visit_list`'s element loop: each item becomes an unforced
`Pending` thunk capturing the current scope (no evaluation happens). -/
def visit_list_items (s : EvalState) (sc : ScopeT) (bt : NixBacktrace) :
    List Expr → EvalState × List Nat
  | [] => (s, [])
  | e :: rest =>
    let (s₁, var) := allocVar s (.pending (new_backtrace bt (.ofExpr e)) sc e)
    let (s₂, vars) := visit_list_items s₁ sc bt rest
    (s₂, var :: vars)

/-! ## The evaluator

The mutual recursion of `visit_expr` (`src/expr.rs`),
`LazyNixValue::resolve` / `resolve_set` (`src/value/lazy.rs`) and the
attribute walks (`src/scope.rs`), bounded by fuel.  Every function takes
the fuel first and decrements it on entry; `Outcome.timeout` is returned
when it runs out.

Snapshot note: the provided `src/scope.rs` is from a later commit than
`src/expr.rs`/`src/value.rs` (its `resolve_attr_path` returns a nested
`NixResult<NixResult<_>>` and calls a two-argument `NixValue::get`, which
the rest of the sources do not have).  The walks below follow the
structure of `src/scope.rs` flattened to the single error layer that
`visit_hasattr`'s `.is_ok()` and `visit_select`'s `is_err()`/`?` in
`src/expr.rs` consume: every walk failure is one `NixError`. -/

/-- The signatures of the mutually recursive evaluator functions, one
fuel level at a time: `visit_expr` (`src/expr.rs`) and its entry/pattern
loops, the attribute walks (`src/scope.rs`), thunk forcing
(`src/value/lazy.rs`) and the builtin protocol.  `EvalFns` is the record
of all of them at one fuel level; each `*_step` body is written against
`self`, the record one fuel level down, so a nested call always has
strictly less fuel. -/
structure EvalFns where
  visit_expr : EvalState → ScopeT → NixBacktrace → Expr → EvalState × Outcome
  insert_entries : EvalState → ScopeT → NixBacktrace → Nat → List Entry → Bool → EvalState × Outcome
  insert_entry_to_attrset : EvalState → ScopeT → NixBacktrace → Nat → Entry → EvalState × Outcome
  inherit_from_attrs : EvalState → ScopeT → NixBacktrace → Nat → Nat → Expr → List Attr → EvalState × Outcome
  inherit_scope_attrs : EvalState → ScopeT → NixBacktrace → Nat → List Attr → EvalState × Outcome
  insert_to_attrset : EvalState → ScopeT → NixBacktrace → Nat → List Attr → Expr → EvalState × Outcome
  resolve_attr : EvalState → ScopeT → NixBacktrace → Attr → EvalState × ROut String
  visit_str_parts : EvalState → ScopeT → NixBacktrace → String → List StrPart → EvalState × ROut String
  resolve_attr_path : EvalState → ScopeT → NixBacktrace → Nat → List Attr → EvalState × Outcome
  resolve_attr_set_path : EvalState → ScopeT → NixBacktrace → Nat → List Attr → EvalState × Outcome
  resolve : EvalState → NixBacktrace → Nat → EvalState × Outcome
  run_eval : EvalState → NixBacktrace → ScopeT → EvalK → EvalState × Outcome
  run_builtin : EvalState → NixBuiltin → NixBacktrace → ScopeT → Expr → EvalState × Outcome
  bind_pat_entries : EvalState → AttrMap → ScopeT → NixBacktrace → List PatEntry → Option (List String) → EvalState × ROut (Option (List String))
  resolve_set : EvalState → Bool → NixBacktrace → Nat → EvalState × Outcome
  resolve_set_list : EvalState → Bool → NixBacktrace → List Nat → EvalState × ROut Unit

/-- Embedding of `Scope::visit_expr` (`src/expr.rs`): one dispatch per syntax node. -/
def visit_expr_step (self : EvalFns) (s : EvalState) (sc : ScopeT) (bt : NixBacktrace) :
    Expr → EvalState × Outcome
  | e =>
      match e with
      | .apply f arg =>
        rbind (self.visit_expr s sc (new_backtrace bt (.ofExpr (.apply f arg))) f)
          fun s₁ lv =>
            match getVal s₁ lv with
            | some (.builtin b) => self.run_builtin s₁ b bt sc arg
            | some (.lambda lsc param body) =>
              let (s₂, scChild) := new_child s₁ lsc
              match param with
              | .pattern entries ellipsis bind =>
                rbind (self.visit_expr s₂ sc bt arg) fun s₃ argVal =>
                  match getVal s₃ argVal with
                  | some (.attrSet argMap) =>
                    let s₄ :=
                      match bind with
                      | some varname =>
                        let (sb, bvar) := allocVar s₃ (.concrete argVal)
                        (set_variable sb scChild varname bvar).1
                      | none => s₃
                    let unused :=
                      if ellipsis then none else some (argMap.map Prod.fst)
                    rbind (self.bind_pat_entries s₄ argMap scChild bt entries unused)
                      fun s₅ unusedFinal =>
                        match unusedFinal with
                        | some (_ :: _) =>
                          (s₅, .panic "Handle error: Unused keys")
                        | _ => self.visit_expr s₅ scChild bt body
                  | some _ => (s₃, .panic "Error handling")
                  | none => (s₃, .panic "invalid value cell")
              | .ident p =>
                let (s₃, avar) :=
                  allocVar s₂ (.pending (new_backtrace bt (.ofExpr arg)) sc arg)
                match set_variable s₃ scChild p avar with
                | (s₄, none) => self.visit_expr s₄ scChild bt body
                | (s₄, some _) =>
                  (s₄, .panic ("Variable " ++ p ++ " already exists"))
            | some _ => (s₁, .panic "Error handling")
            | none => (s₁, .panic "invalid value cell")
      | .assert_ cond body =>
        rbind (self.visit_expr s sc bt cond) fun s₁ cv =>
          match getVal s₁ cv with
          | some cval =>
            match cval.as_bool with
            | some true =>
              match body with
              | some b => self.visit_expr s₁ sc bt b
              | none =>
                let (s₂, v) := allocVal s₁ .null
                (s₂, .ok v)
            | some false =>
              (s₁, .err (.from_message ⟨.ofExpr cond, .assertionFailed, .error⟩
                "assert failed"))
            | none => (s₁, .panic "Error handling")
          | none => (s₁, .panic "invalid value cell")
      | .attrSet isRec entries =>
        if isRec then
          let (s₁, scope₂) := new_child s sc
          rbind (self.insert_entries s₁ scope₂ bt scope₂.varsCell entries false)
            fun s₂ _ => (s₂, .ok scope₂.varsCell)
        else
          let (s₁, out) := allocVal s (.attrSet [])
          rbind (self.insert_entries s₁ sc bt out entries false)
            fun s₂ _ => (s₂, .ok out)
      | .binOp op l r =>
        rbind (self.visit_expr s sc bt l) fun s₁ lv =>
          match getVal s₁ lv with
          | none => (s₁, .panic "invalid value cell")
          | some lval =>
            match op with
            | .concat =>
              match lval.as_list with
              | none => (s₁, .panic "Error handling")
              | some lxs =>
                rbind (self.visit_expr s₁ sc bt r) fun s₂ rv =>
                  match getVal s₂ rv with
                  | some rval =>
                    match rval.as_list with
                    | some rxs =>
                      let (s₃, out) := allocVal s₂ (.list (lxs ++ rxs))
                      (s₃, .ok out)
                    | none => (s₂, .panic "Error handling")
                  | none => (s₂, .panic "invalid value cell")
            | .update =>
              match lval.as_attr_set with
              | none => (s₁, .panic "Error handling")
              | some lm =>
                rbind (self.visit_expr s₁ sc bt r) fun s₂ rv =>
                  match getVal s₂ rv with
                  | some rval =>
                    match rval.as_attr_set with
                    | some rm =>
                      let merged :=
                        rm.foldl (fun acc kv => (mapInsert acc kv.1 kv.2).1) lm
                      let (s₃, out) := allocVal s₂ (.attrSet merged)
                      (s₃, .ok out)
                    | none => (s₂, .panic "Error handling")
                  | none => (s₂, .panic "invalid value cell")
            | .add =>
              match lval with
              | .string ls =>
                rbind (self.visit_expr s₁ sc bt r) fun s₂ rv =>
                  match getVal s₂ rv with
                  | some rval =>
                    match rval.as_string with
                    | some rs =>
                      let (s₃, out) := allocVal s₂ (.string (ls ++ rs))
                      (s₃, .ok out)
                    | none => (s₂, .panic "Error handling")
                  | none => (s₂, .panic "invalid value cell")
              | _ =>
                (s₁, .err (.todo (.ofExpr (.binOp .add l r)) "Cannot add" none))
            | .sub => (s₁, .err (.todo (.ofExpr (.binOp .sub l r)) "Sub op" none))
            | .mul => (s₁, .err (.todo (.ofExpr (.binOp .mul l r)) "Mul op" none))
            | .div => (s₁, .err (.todo (.ofExpr (.binOp .div l r)) "Div op" none))
            | .and_ =>
              match lval.as_bool with
              | none => (s₁, .panic "Error handling")
              | some true => self.visit_expr s₁ sc bt r
              | some false =>
                let (s₂, out) := allocVal s₁ (.bool false)
                (s₂, .ok out)
            | .equal =>
              rbind (self.visit_expr s₁ sc bt r) fun s₂ rv =>
                match getVal s₂ rv with
                | some rval =>
                  let (s₃, out) := allocVal s₂ (.bool (rval.beq lval))
                  (s₃, .ok out)
                | none => (s₂, .panic "invalid value cell")
            | .implication =>
              match lval.as_bool with
              | none => (s₁, .panic "Error handling")
              | some true => self.visit_expr s₁ sc bt r
              | some false =>
                let (s₂, out) := allocVal s₁ (.bool true)
                (s₂, .ok out)
            | .less =>
              match lval with
              | .int ln =>
                rbind (self.visit_expr s₁ sc bt r) fun s₂ rv =>
                  match getVal s₂ rv with
                  | some rval =>
                    match rval.as_int with
                    | some rn =>
                      let (s₃, out) := allocVal s₂ (.bool (decide (ln < rn)))
                      (s₃, .ok out)
                    | none => (s₂, .panic "Error handling")
                  | none => (s₂, .panic "invalid value cell")
              | _ =>
                (s₁, .err (.todo (.ofExpr (.binOp .less l r)) "Cannot less" none))
            | .lessOrEq =>
              (s₁, .err (.todo (.ofExpr (.binOp .lessOrEq l r)) "LessOrEq op" none))
            | .more =>
              (s₁, .err (.todo (.ofExpr (.binOp .more l r)) "More op" none))
            | .moreOrEq =>
              (s₁, .err (.todo (.ofExpr (.binOp .moreOrEq l r)) "MoreOrEq op" none))
            | .notEqual =>
              rbind (self.visit_expr s₁ sc bt r) fun s₂ rv =>
                match getVal s₂ rv with
                | some rval =>
                  let (s₃, out) := allocVal s₂ (.bool (!(rval.beq lval)))
                  (s₃, .ok out)
                | none => (s₂, .panic "invalid value cell")
            | .or_ =>
              match lval.as_bool with
              | none => (s₁, .panic "Error handling")
              | some false => self.visit_expr s₁ sc bt r
              | some true =>
                let (s₂, out) := allocVal s₁ (.bool true)
                (s₂, .ok out)
      | .error => (s, .err (.todo (.ofExpr .error) "Error Expr" none))
      | .hasAttr e' path =>
        rbind (self.visit_expr s sc bt e') fun s₁ v =>
          let (s₂, wvar) := allocVar s₁ (.concrete v)
          match self.resolve_attr_path s₂ sc bt wvar path with
          | (s₃, .ok _) =>
            let (s₄, out) := allocVal s₃ (.bool true)
            (s₄, .ok out)
          | (s₃, .err _) =>
            let (s₄, out) := allocVal s₃ (.bool false)
            (s₄, .ok out)
          | (s₃, .panic m) => (s₃, .panic m)
          | (s₃, .timeout) => (s₃, .timeout)
      | .ident name =>
        match get_variable s sc name with
        | some var => self.resolve s bt var
        | none =>
          (s, .err (.from_message
            ⟨.ofExpr (.ident name), .variableNotFound, .error⟩
            ("Variable '\x1b[1;95m" ++ name ++ "\x1b[0m' not found")))
      | .ifElse c t el =>
        rbind (self.visit_expr s sc bt c) fun s₁ cv =>
          match getVal s₁ cv with
          | some cval =>
            match cval.as_bool with
            | some true => self.visit_expr s₁ sc bt t
            | some false => self.visit_expr s₁ sc bt el
            | none => (s₁, .panic "Error handling")
          | none => (s₁, .panic "invalid value cell")
      | .lambda param body =>
        let (s₁, child) := new_child s sc
        let (s₂, out) := allocVal s₁ (.lambda child param body)
        (s₂, .ok out)
      | .legacyLet => (s, .panic "This is legacy")
      | .letIn entries body =>
        rbind (self.insert_entries s sc bt sc.varsCell entries true) fun s₁ _ =>
          let (s₂, child) := new_child s₁ sc
          self.visit_expr s₂ child (new_backtrace bt (.ofExpr body)) body
      | .list items =>
        let (s₁, vars) := visit_list_items s sc bt items
        let (s₂, out) := allocVal s₁ (.list vars)
        (s₂, .ok out)
      | .litInt n =>
        let (s₁, out) := allocVal s (.int n)
        (s₁, .ok out)
      | .litFloat b =>
        let (s₁, out) := allocVal s (.float b)
        (s₁, .ok out)
      | .litUri => (s, .err (.todo (.ofExpr .litUri) "Uri literal" none))
      | .paren e' => self.visit_expr s sc bt e'
      | .select e' path default =>
        rbind (self.visit_expr s sc bt e') fun s₁ v =>
          let (s₂, wvar) := allocVar s₁ (.concrete v)
          match self.resolve_attr_path s₂ sc bt wvar path with
          | (s₃, .ok rvar) => self.resolve s₃ bt rvar
          | (s₃, .err er) =>
            match default with
            | some d => self.visit_expr s₃ sc bt d
            | none => (s₃, .err er)
          | (s₃, .panic m) => (s₃, .panic m)
          | (s₃, .timeout) => (s₃, .timeout)
      | .str parts =>
        rbind (self.visit_str_parts s sc bt "" parts) fun s₁ str =>
          let (s₂, out) := allocVal s₁ (.string str)
          (s₂, .ok out)
      | .unaryOp op e' =>
        rbind (self.visit_expr s sc bt e') fun s₁ v =>
          match op with
          | .invert =>
            match getVal s₁ v with
            | some val =>
              match val.as_bool with
              | some b =>
                let (s₂, out) := allocVal s₁ (.bool (!b))
                (s₂, .ok out)
              | none => (s₁, .panic "Error handling")
            | none => (s₁, .panic "invalid value cell")
          | .negate =>
            (s₁, .err (.todo (.ofExpr (.unaryOp .negate e')) "Negate op" none))
      | .with_ ns body =>
        rbind (self.visit_expr s sc bt ns) fun s₁ nv =>
          match getVal s₁ nv with
          | some nval =>
            if nval.is_attr_set then
              self.visit_expr s₁ (new_child_from sc nv) bt body
            else (s₁, .panic "Error handling")
          | none => (s₁, .panic "invalid value cell")

/-- The entry loops of `visit_attrset` / `visit_letin`: insert each entry
into `out`.  `letStyle` selects `visit_letin`'s per-entry backtrace frame
(`self.new_backtrace(backtrace, &entry)`); `visit_attrset` passes the
backtrace unchanged. -/
def insert_entries_step (self : EvalFns) (s : EvalState) (sc : ScopeT) (bt : NixBacktrace)
    (out : Nat) (entries : List Entry) (letStyle : Bool) : EvalState × Outcome :=
    match entries with
    | [] => (s, .ok out)
    | entry :: rest =>
      let ebt := if letStyle then new_backtrace bt (.ofEntry entry) else bt
      rbind (self.insert_entry_to_attrset s sc ebt out entry) fun s₁ _ =>
        self.insert_entries s₁ sc bt out rest letStyle

/-- Embedding of `Scope::insert_entry_to_attrset` (`src/expr.rs`): one `Entry`. -/
def insert_entry_to_attrset_step (self : EvalFns) (s : EvalState) (sc : ScopeT)
    (bt : NixBacktrace) (out : Nat) : Entry → EvalState × Outcome
  | entry =>
      match entry with
      | .attrpathValue path value => self.insert_to_attrset s sc bt out path value
      | .inheritE fromE attrs =>
        match fromE with
        | some fe =>
          let (s₁, fromVar) :=
            allocVar s (.pending (new_backtrace bt (.ofInheritFrom fe)) sc fe)
          self.inherit_from_attrs s₁ sc bt out fromVar fe attrs
        | none => self.inherit_scope_attrs s sc bt out attrs

/-- The `inherit (E) a b c;` arm of `insert_entry_to_attrset`: each name
becomes a `PendingEval` closure that forces the shared `E` thunk and
reads the key. -/
def inherit_from_attrs_step (self : EvalFns) (s : EvalState) (sc : ScopeT)
    (bt : NixBacktrace) (out : Nat) (fromVar : Nat) (fe : Expr) :
    List Attr → EvalState × Outcome
  | attrs =>
      match attrs with
      | [] => (s, .ok out)
      | attrNode :: rest =>
        rbind (self.resolve_attr s sc bt attrNode) fun s₁ attr =>
          let (s₂, evar) :=
            allocVar s₁ (.eval (new_backtrace bt (.ofInheritFrom fe)) sc
              (.inheritFrom fromVar attr (.ofAttr attrNode) (.ofInheritFrom fe)))
          match getVal s₂ out with
          | some (.attrSet m) =>
            let (m', _) := mapInsert m attr evar
            self.inherit_from_attrs (setVal s₂ out (.attrSet m')) sc bt out
              fromVar fe rest
          | _ => (s₂, .panic "as_attr_set_mut: not an attrset")

/-- The plain `inherit a b c;` arm of `insert_entry_to_attrset`: each name
becomes a `PendingEval` closure that re-looks the name up in the
enclosing scope at force time. -/
def inherit_scope_attrs_step (self : EvalFns) (s : EvalState) (sc : ScopeT)
    (bt : NixBacktrace) (out : Nat) : List Attr → EvalState × Outcome
  | attrs =>
      match attrs with
      | [] => (s, .ok out)
      | attrNode :: rest =>
        rbind (self.resolve_attr s sc bt attrNode) fun s₁ attr =>
          let (s₂, evar) :=
            allocVar s₁ (.eval (new_backtrace bt (.ofAttr attrNode)) sc
              (.inheritScope attr (.ofAttr attrNode)))
          match getVal s₂ out with
          | some (.attrSet m) =>
            let (m', _) := mapInsert m attr evar
            self.inherit_scope_attrs (setVal s₂ out (.attrSet m')) sc bt out rest
          | _ => (s₂, .panic "as_attr_set_mut: not an attrset")

/-- Embedding of `Scope::insert_to_attrset` (`src/expr.rs`): write-walk the non-final
path segments against `out`, then bind the final attribute to an unforced
`Pending` thunk of the value expression in a fresh child scope. -/
def insert_to_attrset_step (self : EvalFns) (s : EvalState) (sc : ScopeT)
    (bt : NixBacktrace) (out : Nat) (path : List Attr) (value : Expr) :
    EvalState × Outcome :=
    match path.dropLast, path.getLast? with
    | attrPath, some lastAttr =>
      rbind (self.resolve_attr_set_path s sc bt out attrPath) fun s₁ target =>
        match getVal s₁ target with
        | some tv =>
          if tv.is_attr_set then
            rbind (self.resolve_attr s₁ sc bt lastAttr) fun s₂ attr =>
              let (s₃, childSc) := new_child s₂ sc
              let (s₄, child) :=
                allocVar s₃ (.pending (new_backtrace bt (.ofExpr value)) childSc value)
              match getVal s₄ target with
              | some (.attrSet m) =>
                let (m', _) := mapInsert m attr child
                (setVal s₄ target (.attrSet m'), .ok out)
              | _ => (s₄, .panic "as_attr_set_mut: not an attrset")
          else (s₁, .panic "Error handling")
        | none => (s₁, .panic "invalid value cell")
    | _, none => (s, .panic "Attrpath requires at least one attribute")

/-- Embedding of `Scope::resolve_attr` (`src/scope.rs`): an attribute name to a
string — bare identifiers verbatim, string literals via `visit_str`,
dynamic attributes by evaluating and coercing (panicking on a
non-coercible value, `expect("Cannot cast as string")`). -/
def resolve_attr_step (self : EvalFns) (s : EvalState) (sc : ScopeT) (bt : NixBacktrace) :
    Attr → EvalState × ROut String
  | a =>
      match a with
      | .ident name => (s, .ok name)
      | .str parts =>
        rbind (self.visit_str_parts s sc bt "" parts) fun s₁ str => (s₁, .ok str)
      | .dynamic e =>
        rbind (self.visit_expr s sc bt e) fun s₁ v =>
          match getVal s₁ v with
          | some val =>
            match val.as_string with
            | some str => (s₁, .ok str)
            | none => (s₁, .panic "Cannot cast as string")
          | none => (s₁, .panic "invalid value cell")

/-- Embedding of `visit_str`'s chunk loop: concatenate literal chunks and forced
interpolations coerced with `as_string` (panicking on failure, the
source's `.unwrap()`). -/
def visit_str_parts_step (self : EvalFns) (s : EvalState) (sc : ScopeT) (bt : NixBacktrace)
    (acc : String) : List StrPart → EvalState × ROut String
  | parts =>
      match parts with
      | [] => (s, .ok acc)
      | .lit str :: rest => self.visit_str_parts s sc bt (acc ++ str) rest
      | .interp e :: rest =>
        rbind (self.visit_expr s sc bt e) fun s₁ v =>
          match getVal s₁ v with
          | some val =>
            match val.as_string with
            | some str => self.visit_str_parts s₁ sc bt (acc ++ str) rest
            | none => (s₁, .panic "as_string unwrap failed")
          | none => (s₁, .panic "invalid value cell")

/-- Embedding of `Scope::resolve_attr_path` (`src/scope.rs`): the read-walk.  For each
segment, resolve the attribute name, force the current thunk, require an
attrset (the source's `NixValue::get` panics otherwise) and look the
segment up, failing with an `AttributeMissing` error when absent.
Returns the final thunk unforced. -/
def resolve_attr_path_step (self : EvalFns) (s : EvalState) (sc : ScopeT)
    (bt : NixBacktrace) (var : Nat) : List Attr → EvalState × Outcome
  | path =>
      match path with
      | [] => (s, .ok var)
      | attrNode :: rest =>
        rbind (self.resolve_attr s sc bt attrNode) fun s₁ attr =>
          rbind (self.resolve s₁ bt var) fun s₂ v =>
            match getVal s₂ v with
            | some (.attrSet m) =>
              match mapLookup m attr with
              | some next => self.resolve_attr_path s₂ sc bt next rest
              | none =>
                (s₂, .err (bt.to_labeled_error
                  [⟨.ofAttr attrNode, .attributeMissing, .error⟩]
                  ("Attribute '\x1b[1;95m" ++ attr ++ "\x1b[0m' missing")))
            | some _ => (s₂, .panic "Error handling")
            | none => (s₂, .panic "invalid value cell")

/-- Embedding of `Scope::resolve_attr_set_path` (`src/scope.rs`): the write-walk.  For
each segment, force the current value; auto-vivify an empty attrset when
the key is absent; panic (`todo!`) when a present key forces to a
non-attrset. -/
def resolve_attr_set_path_step (self : EvalFns) (s : EvalState) (sc : ScopeT)
    (bt : NixBacktrace) (val : Nat) : List Attr → EvalState × Outcome
  | path =>
      match path with
      | [] => (s, .ok val)
      | attrNode :: rest =>
        rbind (self.resolve_attr s sc bt attrNode) fun s₁ attr =>
          match getVal s₁ val with
          | some (.attrSet m) =>
            match mapLookup m attr with
            | some setVar' =>
              rbind (self.resolve s₁ bt setVar') fun s₂ sv =>
                match getVal s₂ sv with
                | some v₂ =>
                  if v₂.is_attr_set then
                    self.resolve_attr_set_path s₂ sc bt sv rest
                  else (s₂, .panic "Error handling")
                | none => (s₂, .panic "invalid value cell")
            | none =>
              let (s₂, newCell) := allocVal s₁ (.attrSet [])
              let (s₃, newVar) := allocVar s₂ (.concrete newCell)
              let (m', _) := mapInsert m attr newVar
              let s₄ := setVal s₃ val (.attrSet m')
              self.resolve_attr_set_path s₄ sc bt newCell rest
          | some _ => (s₁, .panic "Error handling")
          | none => (s₁, .panic "invalid value cell")

/-- Embedding of `LazyNixValue::resolve` / `NixVar::resolve` (`src/value/lazy.rs`,
`src/value/var.rs`): force a thunk cell.  Concrete cells return their
value; pending cells are swapped to `Resolving` and evaluated, then
memoised as `Concrete` on success; a cell already `Resolving` is an
infinite recursion, reported with the definition span and the
re-entering caller's span. -/
def resolve_step (self : EvalFns) (s : EvalState) (bt : NixBacktrace) (var : Nat) :
    EvalState × Outcome :=
    match getVar s var with
    | some (.concrete v) => (s, .ok v)
    | some (.pending btDef psc pe) =>
      let s₁ := setVar s var (.resolving btDef)
      rbind (self.visit_expr s₁ psc btDef pe) fun s₂ v =>
        (setVar s₂ var (.concrete v), .ok v)
    | some (.eval btDef esc k) =>
      let s₁ := setVar s var (.resolving btDef)
      rbind (self.run_eval s₁ btDef esc k) fun s₂ v =>
        (setVar s₂ var (.concrete v), .ok v)
    | some (.resolving btDef) =>
      (s, .err
        { message := "Infinite recursion detected. Tried to get a value that is resolving"
          labels := [⟨btDef.span, .empty, .error⟩,
                     ⟨bt.span, .custom "Called from here", .help⟩]
          backtrace := btDef.parent })
    | none => (s, .panic "invalid thunk cell")

/-- The defunctionalised `PendingEval` closures (`insert_entry_to_attrset`
in `src/expr.rs`), invoked by `resolve` with the cell's stored backtrace
and scope. -/
def run_eval_step (self : EvalFns) (s : EvalState) (bt : NixBacktrace) (sc : ScopeT) :
    EvalK → EvalState × Outcome
  | k =>
      match k with
      | .inheritFrom fromVar attr attrSpan fromSpan =>
        rbind (self.resolve s bt fromVar) fun s₁ fv =>
          match getVal s₁ fv with
          | some (.attrSet m) =>
            match mapLookup m attr with
            | some v => self.resolve s₁ bt v
            | none =>
              (s₁, .err
                { message := "Attribute '\x1b[1;95m" ++ attr ++ "\x1b[0m' missing"
                  labels := [⟨attrSpan, .attributeMissing, .error⟩,
                             ⟨fromSpan, .custom "Parent attrset", .help⟩]
                  backtrace := some bt })
          | some _ => (s₁, .panic "as_attr_set unwrap: not an attrset")
          | none => (s₁, .panic "invalid value cell")
      | .inheritScope attr attrSpan =>
        match get_variable s sc attr with
        | some v => self.resolve s bt v
        | none =>
          (s, .err (.from_message ⟨attrSpan, .variableNotFound, .error⟩
            ("Variable '" ++ attr ++ " not found")))

/-- Modelled from the spec (§4.6): the builtin protocol delivers
`(backtrace, caller scope, argument expression)` to the callable without
pre-forcing.  Only `throw` is registered here: it evaluates its argument,
coerces it to a string and aborts evaluation with that message (the
builtin library is outside the provided core sources). -/
def run_builtin_step (self : EvalFns) (s : EvalState) (b : NixBuiltin) (bt : NixBacktrace)
    (sc : ScopeT) (arg : Expr) : EvalState × Outcome :=
    match b with
    | .throwB =>
      rbind (self.visit_expr s sc bt arg) fun s₁ v =>
        match getVal s₁ v with
        | some val =>
          match val.as_string with
          | some msg => (s₁, .err { message := msg, labels := [], backtrace := some bt })
          | none => (s₁, .panic "throw: cannot coerce to string")
        | none => (s₁, .panic "invalid value cell")

/-- The pattern-entry loop of `visit_apply` / `NixLambda::call`
(`src/expr.rs`, `src/value.rs`): bind each declared entry from the
argument attrset, falling back to its default (evaluated eagerly in the
lambda's scope) and panicking (`todo!("Require …")`) when neither exists;
maintain the unused-key list by `position` + `swap_remove`. -/
def bind_pat_entries_step (self : EvalFns) (s : EvalState) (argMap : AttrMap)
    (lamSc : ScopeT) (bt : NixBacktrace) (entries : List PatEntry)
    (unused : Option (List String)) : EvalState × ROut (Option (List String)) :=
    match entries with
    | [] => (s, .ok unused)
    | .mk name default :: rest =>
      let unused' := unused.map (swapRemoveFirst · name)
      match mapLookup argMap name with
      | some var =>
        let (s₁, _) := set_variable s lamSc name var
        self.bind_pat_entries s₁ argMap lamSc bt rest unused'
      | none =>
        match default with
        | some dexpr =>
          rbind (self.visit_expr s lamSc bt dexpr) fun s₁ dv =>
            let (s₂, dvar) := allocVar s₁ (.concrete dv)
            let (s₃, _) := set_variable s₂ lamSc name dvar
            self.bind_pat_entries s₃ argMap lamSc bt rest unused'
        | none => (s, .panic ("Require " ++ name))

/-- Embedding of `LazyNixValue::resolve_set` (`src/value/lazy.rs`): force a thunk;
if it is an attrset or a list, force each member thunk (descending when
`recursive`). -/
def resolve_set_step (self : EvalFns) (s : EvalState) (recursive : Bool)
    (bt : NixBacktrace) (var : Nat) : EvalState × Outcome :=
    rbind (self.resolve s bt var) fun s₁ v =>
      match getVal s₁ v with
      | some (.attrSet m) =>
        rbind (self.resolve_set_list s₁ recursive bt (m.map Prod.snd))
          fun s₂ _ => (s₂, .ok v)
      | some (.list xs) =>
        rbind (self.resolve_set_list s₁ recursive bt xs)
          fun s₂ _ => (s₂, .ok v)
      | some _ => (s₁, .ok v)
      | none => (s₁, .panic "invalid value cell")

/-- The member loop of `resolve_set`. -/
def resolve_set_list_step (self : EvalFns) (s : EvalState) (recursive : Bool)
    (bt : NixBacktrace) : List Nat → EvalState × ROut Unit
  | vars =>
      match vars with
      | [] => (s, .ok ())
      | v :: rest =>
        rbind
          (if recursive then self.resolve_set s true bt v
           else self.resolve s bt v)
          fun s₁ _ => self.resolve_set_list s₁ recursive bt rest

/-- The evaluator with no fuel left: every operation reports fuel
exhaustion (the embedding's bound on host-stack recursion). -/
def bottomFns : EvalFns where
  visit_expr := fun s _ _ _ => (s, .timeout)
  insert_entries := fun s _ _ _ _ _ => (s, .timeout)
  insert_entry_to_attrset := fun s _ _ _ _ => (s, .timeout)
  inherit_from_attrs := fun s _ _ _ _ _ _ => (s, .timeout)
  inherit_scope_attrs := fun s _ _ _ _ => (s, .timeout)
  insert_to_attrset := fun s _ _ _ _ _ => (s, .timeout)
  resolve_attr := fun s _ _ _ => (s, .timeout)
  visit_str_parts := fun s _ _ _ _ => (s, .timeout)
  resolve_attr_path := fun s _ _ _ _ => (s, .timeout)
  resolve_attr_set_path := fun s _ _ _ _ => (s, .timeout)
  resolve := fun s _ _ => (s, .timeout)
  run_eval := fun s _ _ _ => (s, .timeout)
  run_builtin := fun s _ _ _ _ => (s, .timeout)
  bind_pat_entries := fun s _ _ _ _ _ => (s, .timeout)
  resolve_set := fun s _ _ _ => (s, .timeout)
  resolve_set_list := fun s _ _ _ => (s, .timeout)

/-- One fuel level of the evaluator on top of the level below. -/
def stepFns (self : EvalFns) : EvalFns where
  visit_expr := visit_expr_step self
  insert_entries := insert_entries_step self
  insert_entry_to_attrset := insert_entry_to_attrset_step self
  inherit_from_attrs := inherit_from_attrs_step self
  inherit_scope_attrs := inherit_scope_attrs_step self
  insert_to_attrset := insert_to_attrset_step self
  resolve_attr := resolve_attr_step self
  visit_str_parts := visit_str_parts_step self
  resolve_attr_path := resolve_attr_path_step self
  resolve_attr_set_path := resolve_attr_set_path_step self
  resolve := resolve_step self
  run_eval := run_eval_step self
  run_builtin := run_builtin_step self
  bind_pat_entries := bind_pat_entries_step self
  resolve_set := resolve_set_step self
  resolve_set_list := resolve_set_list_step self

/-- The evaluator at a given fuel level. -/
def fnsAt (fuel : Nat) : EvalFns :=
  @Nat.rec (fun _ => EvalFns) bottomFns (fun _ prev => stepFns prev) fuel

/-- Embedding of `Scope::visit_expr` (`src/expr.rs`) at a fuel level. -/
def visit_expr (fuel : Nat) : EvalState → ScopeT → NixBacktrace → Expr → EvalState × Outcome :=
  (fnsAt fuel).visit_expr

/-- The entry loop of `visit_attrset` / `visit_letin` at a fuel level. -/
def insert_entries (fuel : Nat) : EvalState → ScopeT → NixBacktrace → Nat → List Entry → Bool → EvalState × Outcome :=
  (fnsAt fuel).insert_entries

/-- Embedding of `Scope::insert_entry_to_attrset` at a fuel level. -/
def insert_entry_to_attrset (fuel : Nat) : EvalState → ScopeT → NixBacktrace → Nat → Entry → EvalState × Outcome :=
  (fnsAt fuel).insert_entry_to_attrset

/-- The `inherit (E) …;` loop at a fuel level. -/
def inherit_from_attrs (fuel : Nat) : EvalState → ScopeT → NixBacktrace → Nat → Nat → Expr → List Attr → EvalState × Outcome :=
  (fnsAt fuel).inherit_from_attrs

/-- The plain `inherit …;` loop at a fuel level. -/
def inherit_scope_attrs (fuel : Nat) : EvalState → ScopeT → NixBacktrace → Nat → List Attr → EvalState × Outcome :=
  (fnsAt fuel).inherit_scope_attrs

/-- Embedding of `Scope::insert_to_attrset` at a fuel level. -/
def insert_to_attrset (fuel : Nat) : EvalState → ScopeT → NixBacktrace → Nat → List Attr → Expr → EvalState × Outcome :=
  (fnsAt fuel).insert_to_attrset

/-- Embedding of `Scope::resolve_attr` at a fuel level. -/
def resolve_attr (fuel : Nat) : EvalState → ScopeT → NixBacktrace → Attr → EvalState × ROut String :=
  (fnsAt fuel).resolve_attr

/-- The `visit_str` chunk loop at a fuel level. -/
def visit_str_parts (fuel : Nat) : EvalState → ScopeT → NixBacktrace → String → List StrPart → EvalState × ROut String :=
  (fnsAt fuel).visit_str_parts

/-- Embedding of `Scope::resolve_attr_path` (the read-walk) at a fuel level. -/
def resolve_attr_path (fuel : Nat) : EvalState → ScopeT → NixBacktrace → Nat → List Attr → EvalState × Outcome :=
  (fnsAt fuel).resolve_attr_path

/-- Embedding of `Scope::resolve_attr_set_path` (the write-walk) at a fuel level. -/
def resolve_attr_set_path (fuel : Nat) : EvalState → ScopeT → NixBacktrace → Nat → List Attr → EvalState × Outcome :=
  (fnsAt fuel).resolve_attr_set_path

/-- Embedding of `LazyNixValue::resolve` / `NixVar::resolve` at a fuel level. -/
def resolve (fuel : Nat) : EvalState → NixBacktrace → Nat → EvalState × Outcome :=
  (fnsAt fuel).resolve

/-- The defunctionalised `PendingEval` closures at a fuel level. -/
def run_eval (fuel : Nat) : EvalState → NixBacktrace → ScopeT → EvalK → EvalState × Outcome :=
  (fnsAt fuel).run_eval

/-- The builtin protocol at a fuel level. -/
def run_builtin (fuel : Nat) : EvalState → NixBuiltin → NixBacktrace → ScopeT → Expr → EvalState × Outcome :=
  (fnsAt fuel).run_builtin

/-- The pattern-entry loop of `visit_apply` / `NixLambda::call` at a fuel level. -/
def bind_pat_entries (fuel : Nat) : EvalState → AttrMap → ScopeT → NixBacktrace → List PatEntry → Option (List String) → EvalState × ROut (Option (List String)) :=
  (fnsAt fuel).bind_pat_entries

/-- Embedding of `LazyNixValue::resolve_set` at a fuel level. -/
def resolve_set (fuel : Nat) : EvalState → Bool → NixBacktrace → Nat → EvalState × Outcome :=
  (fnsAt fuel).resolve_set

/-- The member loop of `resolve_set` at a fuel level. -/
def resolve_set_list (fuel : Nat) : EvalState → Bool → NixBacktrace → List Nat → EvalState × ROut Unit :=
  (fnsAt fuel).resolve_set_list

/-- Unfolding a successor fuel level of `visit_expr`. -/
theorem visit_expr_succ (fuel : Nat) :
    visit_expr (fuel + 1) = visit_expr_step (fnsAt fuel) := rfl

/-- Unfolding a successor fuel level of `resolve`. -/
theorem resolve_succ (fuel : Nat) :
    resolve (fuel + 1) = resolve_step (fnsAt fuel) := rfl

/-- The `visit_expr` field of a fuel level is `visit_expr` at that level. -/
theorem fnsAt_visit_expr (fuel : Nat) :
    (fnsAt fuel).visit_expr = visit_expr fuel := rfl

/-- The `resolve` field of a fuel level is `resolve` at that level. -/
theorem fnsAt_resolve (fuel : Nat) :
    (fnsAt fuel).resolve = resolve fuel := rfl

/-- The `run_eval` field of a fuel level is `run_eval` at that level. -/
theorem fnsAt_run_eval (fuel : Nat) :
    (fnsAt fuel).run_eval = run_eval fuel := rfl

/-- The `resolve_attr_path` field of a fuel level is `resolve_attr_path`
at that level. -/
theorem fnsAt_resolve_attr_path (fuel : Nat) :
    (fnsAt fuel).resolve_attr_path = resolve_attr_path fuel := rfl

/-! ## Top-level entry

`FileScope::evaluate` + `Scope::new_with_builtins` (`src/scope.rs`,
`src/scope/file.rs`): the host builds a root frame with the registered
globals and an empty child frame on top of it, then visits the root
expression.  Of the globals only the value globals `false`, `null`,
`true` and the builtin `throw` are registered here (in the source's
insertion order); the remaining builtins live outside the provided core
sources, and no claim touches them.  The initial backtrace is a single
root frame (the driver that supplies it is likewise outside `src/`). -/

/-- The empty heap. -/
def emptyState : EvalState :=
  { vals := [], vars := [], nextVal := 0, nextVar := 0 }

/-- Embedding of `Scope::new_with_builtins`, restricted to the globals the embedding
registers (see the section header): the resulting heap and the top-level
scope (an empty frame whose parent holds the globals). -/
def boot : EvalState × ScopeT :=
  let s := emptyState
  let (s, vFalse) := allocVal s (.bool false)
  let (s, varFalse) := allocVar s (.concrete vFalse)
  let (s, vNull) := allocVal s .null
  let (s, varNull) := allocVar s (.concrete vNull)
  let (s, vThrow) := allocVal s (.builtin .throwB)
  let (s, varThrow) := allocVar s (.concrete vThrow)
  let (s, vTrue) := allocVal s (.bool true)
  let (s, varTrue) := allocVar s (.concrete vTrue)
  let (s, globals) := allocVal s (.attrSet
    [("false", varFalse), ("null", varNull), ("throw", varThrow), ("true", varTrue)])
  let rootScope := ScopeT.mk globals none
  let (s, topVars) := allocVal s (.attrSet [])
  (s, ScopeT.mk topVars (some rootScope))

/-- The initial backtrace frame. -/
def bt0 : NixBacktrace := .mk .root none

/-- Evaluate a whole program: `FileScope::evaluate` → `visit_root` →
`visit_expr` on the root expression, in the boot heap and scope. -/
def run (fuel : Nat) (e : Expr) : EvalState × Outcome :=
  visit_expr fuel boot.1 boot.2 bt0 e

/-- The outcome of a whole-program evaluation. -/
def runOutcome (fuel : Nat) (e : Expr) : Outcome := (run fuel e).2

/-- The final value of a whole-program evaluation, read back from the
final heap (`none` unless evaluation succeeded). -/
def finalValue (fuel : Nat) (e : Expr) : Option NixValue :=
  match run fuel e with
  | (s, .ok v) => getVal s v
  | _ => none

/-! ## Observation helpers for the theorems -/

/-- Whether a result is a success. -/
def ROut.isOk {α : Type} : ROut α → Bool
  | .ok _ => true
  | _ => false

/-- Whether a result is a `NixError` (as opposed to a success, a Rust
panic, or fuel exhaustion). -/
def ROut.isErr {α : Type} : ROut α → Bool
  | .err _ => true
  | _ => false

/-- The message of an error outcome. -/
def errMessage : Outcome → Option String
  | .err e => some e.message
  | _ => none

/-- Whether a final value is the given machine integer. -/
def isSomeInt (o : Option NixValue) (n : Int) : Bool :=
  match o with
  | some (.int m) => m == n
  | _ => false

/-- Whether a final value is the given boolean. -/
def isSomeBool (o : Option NixValue) (b : Bool) : Bool :=
  match o with
  | some (.bool c) => c == b
  | _ => false

/-- Whether an outcome is a `NixError` carrying an `UnusedArgument`
label. -/
def hasUnusedArgumentLabel (o : Outcome) : Bool :=
  match o with
  | .err e =>
    e.labels.any fun l =>
      match l.message with
      | .unusedArgument => true
      | _ => false
  | _ => false

/-- Whether thunk cell `j` is in the `Resolving` state. -/
def isResolvingVar (s : EvalState) (j : Nat) : Bool :=
  match getVar s j with
  | some (.resolving _) => true
  | _ => false

/-! ## The claim programs -/

/-- Embedding of `throw "m"` as an application of the registered builtin. -/
def throwS (m : String) : Expr := .apply (.ident "throw") (.str [.lit m])

/-- A one-attribute integer binding `n = k;`. -/
def intBinding (n : String) (k : Int) : Entry :=
  .attrpathValue [.ident n] (.litInt k)

/-- Embedding of `let x = 1; y = x + 1; in y`. -/
def c1prog : Expr :=
  .letIn [intBinding "x" 1,
          .attrpathValue [.ident "y"] (.binOp .add (.ident "x") (.litInt 1))]
    (.ident "y")

/-- Embedding of `{ a = 1; }`. -/
def attrA1 : Expr := .attrSet false [intBinding "a" 1]

/-- Embedding of `{ a = 1; } == { a = 1; }`: two separately constructed attrsets. -/
def c2prog : Expr := .binOp .equal attrA1 attrA1

/-- Embedding of `let s = { a = 1; }; in s == s`: the same attrset cell twice. -/
def c2progSame : Expr :=
  .letIn [.attrpathValue [.ident "s"] attrA1]
    (.binOp .equal (.ident "s") (.ident "s"))

/-- Embedding of `(let a = 2; in a)`. -/
def c3inner : Expr :=
  .paren (.letIn [intBinding "a" 2] (.ident "a"))

/-- Embedding of `let a = 1; in (let a = 2; in a) + a`. -/
def c3prog : Expr :=
  .letIn [intBinding "a" 1] (.binOp .add c3inner (.ident "a"))

/-- Embedding of `let a = true; in (let a = false; in a) || a`: observes which binding
the second `a` sees, using only implemented operators. -/
def c3progB : Expr :=
  .letIn [.attrpathValue [.ident "a"] (.ident "true")]
    (.binOp .or_
      (.paren (.letIn [.attrpathValue [.ident "a"] (.ident "false")] (.ident "a")))
      (.ident "a"))

/-- Embedding of `let inf = inf; in 1`. -/
def c4infProg : Expr :=
  .letIn [.attrpathValue [.ident "inf"] (.ident "inf")] (.litInt 1)

/-- Embedding of `let x = throw "boom"; in 1`. -/
def c4throwProg : Expr :=
  .letIn [.attrpathValue [.ident "x"] (throwS "boom")] (.litInt 1)

/-- Embedding of `[ (throw "boom") 2 ]`. -/
def c4listProg : Expr := .list [.paren (throwS "boom"), .litInt 2]

/-- Embedding of `let x = x; in x`. -/
def c5prog : Expr :=
  .letIn [.attrpathValue [.ident "x"] (.ident "x")] (.ident "x")

/-- Embedding of `({a, b}: a)` — pattern without `...`. -/
def c8lamStrict : Expr :=
  .lambda (.pattern [.mk "a" none, .mk "b" none] false none) (.ident "a")

/-- Embedding of `({a, b, ...}: a)` — pattern with `...`. -/
def c8lamEllipsis : Expr :=
  .lambda (.pattern [.mk "a" none, .mk "b" none] true none) (.ident "a")

/-- Embedding of `{ a = 1; b = 2; c = 3; }`. -/
def c8arg : Expr :=
  .attrSet false [intBinding "a" 1, intBinding "b" 2, intBinding "c" 3]

/-- Embedding of `({a, b}: a) { a = 1; b = 2; c = 3; }`. -/
def c8progStrict : Expr := .apply (.paren c8lamStrict) c8arg

/-- Embedding of `({a, b, ...}: a) { a = 1; b = 2; c = 3; }`. -/
def c8progEllipsis : Expr := .apply (.paren c8lamEllipsis) c8arg

/-- Embedding of `let x = throw "A"; in [ x x ]`: a failing thunk aliased by two list
elements. -/
def c10prog : Expr :=
  .letIn [.attrpathValue [.ident "x"] (throwS "A")]
    (.list [.ident "x", .ident "x"])

/-- Deep-force the value of `c10prog` once (the host's `force_deep`,
wrapping the returned value cell in a concrete thunk first). -/
def c10first : EvalState × Outcome :=
  match run 60 c10prog with
  | (s, .ok v) =>
    let (s₂, w) := allocVar s (.concrete v)
    resolve_set 60 s₂ true bt0 w
  | other => other

/-- Deep-force the same value a second time, from the state the first
(failing) deep force left behind. -/
def c10second : EvalState × Outcome :=
  resolve_set 60 c10first.1 true bt0 (run 60 c10prog).1.nextVar

/-! ## The claims -/

/-- C1, counterexample.  The claim says `+` on two Ints yields an Int and
in particular `let x = 1; y = x + 1; in y` returns the integer 2.  The
code's `visit_binop` only implements `Add` for a string left operand and
answers every other `Add` with the unimplemented error `"Cannot add"`
(`src/expr.rs` lines 412–424), so the program does not return 2 — it
fails with that error (an `err`, not a timeout, so no amount of fuel
changes it). -/
theorem c1_arith_claim_counterexample :
    runOutcome 60 c1prog =
      .err (.todo (.ofExpr (.binOp .add (.ident "x") (.litInt 1))) "Cannot add" none) ∧
    isSomeInt (finalValue 60 c1prog) 2 = false :=
  ⟨rfl, rfl⟩

/-- C1, amended: numeric `+`, `-`, `*`, `/` are all unimplemented:
`+` with a non-string left operand fails with the `"Cannot add"` todo
error (so `let x = 1; y = x + 1; in y` fails rather than returning 2),
and `-`, `*`, `/` fail with `"Sub op"` / `"Mul op"` / `"Div op"`
unconditionally; only string concatenation (`+` with a string left
operand coercing the right operand via `as_string`) is implemented. -/
theorem c1_arith_unimplemented :
    runOutcome 60 c1prog =
      .err (.todo (.ofExpr (.binOp .add (.ident "x") (.litInt 1))) "Cannot add" none) ∧
    runOutcome 60 (.binOp .sub (.litInt 1) (.litInt 1)) =
      .err (.todo (.ofExpr (.binOp .sub (.litInt 1) (.litInt 1))) "Sub op" none) ∧
    runOutcome 60 (.binOp .mul (.litInt 2) (.litInt 3)) =
      .err (.todo (.ofExpr (.binOp .mul (.litInt 2) (.litInt 3))) "Mul op" none) ∧
    runOutcome 60 (.binOp .div (.litInt 4) (.litInt 2)) =
      .err (.todo (.ofExpr (.binOp .div (.litInt 4) (.litInt 2))) "Div op" none) ∧
    finalValue 60 (.binOp .add (.str [.lit "a"]) (.str [.lit "b"])) =
      some (.string "ab") :=
  ⟨rfl, rfl, rfl, rfl, rfl⟩

/-- C2, counterexample.  The claim says two attrsets compare equal iff
they have the same key set and pointwise-equal forced values,
independent of thunk identity.  The code compares attrsets with the
derived `PartialEq`, whose member comparison is `NixVar` pointer
equality (`src/value/var.rs` lines 25–31) and never forces the member
thunks, so `{ a = 1; } == { a = 1; }` — same key set, equal forced
values, distinct thunk cells — evaluates to `false`, not `true`. -/
theorem c2_structural_eq_counterexample :
    finalValue 60 c2prog = some (.bool false) ∧
    isSomeBool (finalValue 60 c2prog) true = false :=
  ⟨rfl, rfl⟩

/-- C2, amended: `==` forces both top-level operands and compares
attrsets by key set plus *pointer identity* of the member thunk cells
(never forcing them); insertion order is still immaterial.  Hence
`let s = { a = 1; }; in s == s` is `true` (same cells) while
`{ a = 1; } == { a = 1; }` is `false` (equal forced values, distinct
cells); at the definition level, attrset equality holds for the same
key set with identical cell ids regardless of order and fails for
distinct cell ids. -/
theorem c2_attrset_eq_by_thunk_identity :
    finalValue 60 c2progSame = some (.bool true) ∧
    finalValue 60 c2prog = some (.bool false) ∧
    NixValue.beq (.attrSet [("a", 4), ("b", 5)]) (.attrSet [("b", 5), ("a", 4)]) = true ∧
    NixValue.beq (.attrSet [("a", 4)]) (.attrSet [("a", 5)]) = false :=
  ⟨rfl, rfl, rfl, rfl⟩

/-- C3, counterexample.  The claim says
`let a = 1; in (let a = 2; in a) + a` returns 3.  It does not: `+` on
integers is unimplemented, so the program fails with the `"Cannot add"`
error (and, independently, the inner `let` writes `a = 2` into the
enclosing scope's `variables`, see the amended theorem). -/
theorem c3_scope_isolation_counterexample :
    runOutcome 60 c3prog =
      .err (.todo (.ofExpr (.binOp .add c3inner (.ident "a"))) "Cannot add" none) ∧
    isSomeInt (finalValue 60 c3prog) 3 = false :=
  ⟨rfl, rfl⟩

/-- C3, amended: the claimed program fails with the unimplemented
`"Cannot add"` error instead of returning 3; and inner-`let` bindings do
leak — `visit_letin` inserts entries into the *current* scope's
`variables` (`src/expr.rs` lines 611–617), so in
`let a = true; in (let a = false; in a) || a` the second `a` sees the
inner binding and the program evaluates to `false` (scope isolation
would give `true`). -/
theorem c3_letin_leaks_into_enclosing_scope :
    runOutcome 60 c3prog =
      .err (.todo (.ofExpr (.binOp .add c3inner (.ident "a"))) "Cannot add" none) ∧
    finalValue 60 c3progB = some (.bool false) :=
  ⟨rfl, rfl⟩

/-- C4: let bindings and list elements are wrapped in unforced `Pending`
thunks without being invoked: `let inf = inf; in 1` and
`let x = throw "boom"; in 1` both return 1, and `[ (throw "boom") 2 ]`
constructs a list whose first element cell still holds the unevaluated
`throw` expression. -/
theorem c4_laziness_unused_bindings :
    finalValue 60 c4infProg = some (.int 1) ∧
    finalValue 60 c4throwProg = some (.int 1) ∧
    finalValue 60 c4listProg = some (.list [4, 5]) ∧
    getVar (run 60 c4listProg).1 4 =
      some (.pending (new_backtrace bt0 (.ofExpr (.paren (throwS "boom"))))
        boot.2 (.paren (throwS "boom"))) :=
  ⟨rfl, rfl, rfl, rfl⟩

/-- C5: `let x = x; in x` fails with the infinite-recursion error, whose
two labels are the definition span and the re-entering caller's span —
here both the `x` ident node (the binding's value occurrence is the
stored definition backtrace, and the re-entering force passes that same
backtrace down). -/
theorem c5_infinite_recursion_two_labels :
    runOutcome 60 c5prog =
      .err
        { message := "Infinite recursion detected. Tried to get a value that is resolving"
          labels := [⟨.ofExpr (.ident "x"), .empty, .error⟩,
                     ⟨.ofExpr (.ident "x"), .custom "Called from here", .help⟩]
          backtrace := some (.mk
            (.ofEntry (.attrpathValue [.ident "x"] (.ident "x"))) (some bt0)) } :=
  rfl

/-- C8, counterexample.  The claim says applying `{a, b}: a` to
`{ a = 1; b = 2; c = 3; }` yields an `UnusedArgument` error.  The code
never constructs such an error: after processing all pattern entries it
hits `todo!("Handle error: Unused keys: {unused:?}")` (`src/expr.rs`
line 282), a Rust panic, so the outcome is not a `NixError` at all. -/
theorem c8_unused_argument_counterexample :
    ROut.isErr (runOutcome 60 c8progStrict) = false ∧
    hasUnusedArgumentLabel (runOutcome 60 c8progStrict) = false :=
  ⟨rfl, rfl⟩

/-- C8, amended: with `...` absent, extra argument keys are detected
after all pattern entries are processed but abort evaluation with the
`todo!` panic `"Handle error: Unused keys"` (the embedding carries the
panic message without Rust's `{:?}`-formatted key list) instead of an
`UnusedArgument` error; with `...` present the extra keys are accepted
and `({a, b, ...}: a) { a = 1; b = 2; c = 3; }` returns 1. -/
theorem c8_unused_argument_panics :
    runOutcome 60 c8progStrict = .panic "Handle error: Unused keys" ∧
    finalValue 60 c8progEllipsis = some (.int 1) :=
  ⟨rfl, rfl⟩

/-- Forcing a cell that is already `Concrete` returns the stored value
immediately, leaving the heap untouched. -/
theorem resolve_concrete (fuel : Nat) (s : EvalState) (bt : NixBacktrace)
    (vid v : Nat) (h : getVar s vid = some (.concrete v)) :
    resolve (fuel + 1) s bt vid = (s, .ok v) := by
  rw [resolve_succ]
  unfold resolve_step
  rw [h]

/-- A cell written by `setVar` reads back what was written. -/
theorem setVar_vars_self (s : EvalState) (vid : Nat) (lv : LazyVal) :
    getVar (setVar s vid lv) vid = some lv := by
  simp [setVar, getVar, storeLookup]

/-- C6: after one successful force (`resolve fuel s bt vid = (s', ok v)`),
the cell holds `Concrete v`, and every subsequent force — at any fuel and
from any caller backtrace — returns the stored value with the heap
unchanged.  The suspended expression is gone from the cell, so it cannot
run again: forcing is memoised and idempotent. -/
theorem c6_memoisation (fuel : Nat) (s s' : EvalState) (bt : NixBacktrace)
    (vid v : Nat) (h : resolve fuel s bt vid = (s', .ok v)) :
    getVar s' vid = some (.concrete v) ∧
      ∀ (fuel' : Nat) (bt' : NixBacktrace), resolve (fuel' + 1) s' bt' vid = (s', .ok v) := by
  match fuel with
  | 0 =>
    rw [show resolve 0 s bt vid = (s, ROut.timeout) from rfl] at h
    simp at h
  | fuel + 1 =>
    rw [resolve_succ] at h
    unfold resolve_step at h
    simp only [fnsAt_visit_expr, fnsAt_run_eval] at h
    split at h
    next c hv =>
      simp only [Prod.mk.injEq, ROut.ok.injEq] at h
      obtain ⟨hs, hc⟩ := h
      subst hs; subst hc
      exact ⟨hv, fun fuel' bt' => resolve_concrete fuel' s bt' vid _ hv⟩
    next btDef psc pe hv =>
      rcases hve : visit_expr fuel (setVar s vid (.resolving btDef)) psc btDef pe
        with ⟨s₂, o⟩
      rw [hve] at h
      cases o with
      | ok w =>
        simp only [rbind, Prod.mk.injEq, ROut.ok.injEq] at h
        obtain ⟨hs, hc⟩ := h
        subst hs; subst hc
        exact ⟨setVar_vars_self s₂ vid _,
          fun fuel' bt' =>
            resolve_concrete fuel' _ bt' vid _ (setVar_vars_self s₂ vid _)⟩
      | err er => simp [rbind] at h
      | panic m => simp [rbind] at h
      | timeout => simp [rbind] at h
    next btDef esc k hv =>
      rcases hve : run_eval fuel (setVar s vid (.resolving btDef)) btDef esc k
        with ⟨s₂, o⟩
      rw [hve] at h
      cases o with
      | ok w =>
        simp only [rbind, Prod.mk.injEq, ROut.ok.injEq] at h
        obtain ⟨hs, hc⟩ := h
        subst hs; subst hc
        exact ⟨setVar_vars_self s₂ vid _,
          fun fuel' bt' =>
            resolve_concrete fuel' _ bt' vid _ (setVar_vars_self s₂ vid _)⟩
      | err er => simp [rbind] at h
      | panic m => simp [rbind] at h
      | timeout => simp [rbind] at h
    next btDef hv => simp at h
    next hv => simp at h

/-- A one-cell heap with a pending `42` literal, for the C6 witness. -/
def c6state : EvalState :=
  { vals := [(0, .attrSet [])]
    vars := [(0, .pending bt0 (.mk 0 none) (.litInt 42))]
    nextVal := 1
    nextVar := 1 }

/-- C6, witness: forcing the pending cell of `c6state` succeeds, after
which the cell is `Concrete` and re-forcing at any fuel returns the same
value with the same heap. -/
theorem c6_memoisation_witness :
    getVar (resolve 3 c6state bt0 0).1 0 = some (.concrete 1) ∧
      ∀ (fuel' : Nat) (bt' : NixBacktrace),
        resolve (fuel' + 1) (resolve 3 c6state bt0 0).1 bt' 0 =
          ((resolve 3 c6state bt0 0).1, .ok 1) :=
  c6_memoisation 3 c6state (resolve 3 c6state bt0 0).1 bt0 0 1 rfl

/-- C7: the short-circuit operators.  Whenever the left operand
evaluates to the boolean `false` (for `&&` and `->`) or `true` (for
`||`), the whole binop returns the constant result — `false`, `true`,
`true` respectively — allocated in the left operand's final heap.  The
right operand expression `r` is universally quantified and absent from
the conclusion: it is never evaluated, whatever it is (including
expressions that would raise an error). -/
theorem c7_short_circuit :
    (∀ (fuel : Nat) (s : EvalState) (sc : ScopeT) (bt : NixBacktrace) (l r : Expr)
        (s₁ : EvalState) (v : Nat),
        visit_expr fuel s sc bt l = (s₁, .ok v) →
        getVal s₁ v = some (.bool false) →
        visit_expr (fuel + 1) s sc bt (.binOp .and_ l r) =
          ((allocVal s₁ (.bool false)).1, .ok (allocVal s₁ (.bool false)).2)) ∧
    (∀ (fuel : Nat) (s : EvalState) (sc : ScopeT) (bt : NixBacktrace) (l r : Expr)
        (s₁ : EvalState) (v : Nat),
        visit_expr fuel s sc bt l = (s₁, .ok v) →
        getVal s₁ v = some (.bool true) →
        visit_expr (fuel + 1) s sc bt (.binOp .or_ l r) =
          ((allocVal s₁ (.bool true)).1, .ok (allocVal s₁ (.bool true)).2)) ∧
    (∀ (fuel : Nat) (s : EvalState) (sc : ScopeT) (bt : NixBacktrace) (l r : Expr)
        (s₁ : EvalState) (v : Nat),
        visit_expr fuel s sc bt l = (s₁, .ok v) →
        getVal s₁ v = some (.bool false) →
        visit_expr (fuel + 1) s sc bt (.binOp .implication l r) =
          ((allocVal s₁ (.bool true)).1, .ok (allocVal s₁ (.bool true)).2)) := by
  refine ⟨?_, ?_, ?_⟩ <;>
    · intro fuel s sc bt l r s₁ v h hv
      rw [visit_expr_succ]
      simp [visit_expr_step, fnsAt_visit_expr, h, rbind, hv, NixValue.as_bool]

/-- C7, witness: `false && throw "x"`, `true || throw "x"` and
`false -> throw "x"` — with an erroring right operand — return `false`,
`true`, `true`. -/
theorem c7_short_circuit_witness :
    visit_expr 51 boot.1 boot.2 bt0 (.binOp .and_ (.ident "false") (throwS "x")) =
      ((allocVal (visit_expr 50 boot.1 boot.2 bt0 (.ident "false")).1 (.bool false)).1,
       .ok (allocVal (visit_expr 50 boot.1 boot.2 bt0 (.ident "false")).1 (.bool false)).2) ∧
    visit_expr 51 boot.1 boot.2 bt0 (.binOp .or_ (.ident "true") (throwS "x")) =
      ((allocVal (visit_expr 50 boot.1 boot.2 bt0 (.ident "true")).1 (.bool true)).1,
       .ok (allocVal (visit_expr 50 boot.1 boot.2 bt0 (.ident "true")).1 (.bool true)).2) ∧
    visit_expr 51 boot.1 boot.2 bt0 (.binOp .implication (.ident "false") (throwS "x")) =
      ((allocVal (visit_expr 50 boot.1 boot.2 bt0 (.ident "false")).1 (.bool true)).1,
       .ok (allocVal (visit_expr 50 boot.1 boot.2 bt0 (.ident "false")).1 (.bool true)).2) :=
  ⟨c7_short_circuit.1 50 boot.1 boot.2 bt0 (.ident "false") (throwS "x")
      (visit_expr 50 boot.1 boot.2 bt0 (.ident "false")).1 0 rfl rfl,
   c7_short_circuit.2.1 50 boot.1 boot.2 bt0 (.ident "true") (throwS "x")
      (visit_expr 50 boot.1 boot.2 bt0 (.ident "true")).1 3 rfl rfl,
   c7_short_circuit.2.2 50 boot.1 boot.2 bt0 (.ident "false") (throwS "x")
      (visit_expr 50 boot.1 boot.2 bt0 (.ident "false")).1 0 rfl rfl⟩

/-- C9: `e ? path` — once `e` itself evaluates — always produces a
boolean: `true` exactly when the read-walk over the value of `e`
succeeds, `false` whenever the read-walk fails with any `NixError`
(`AttributeMissing` at any segment included).  The conclusion is
`Outcome.ok` of a boolean in both branches, so `HasAttr` never surfaces
the walk's error. -/
theorem c9_hasattr_coercion (fuel : Nat) (s : EvalState) (sc : ScopeT)
    (bt : NixBacktrace) (e : Expr) (path : List Attr) (s₁ : EvalState) (v : Nat)
    (h : visit_expr fuel s sc bt e = (s₁, .ok v)) :
    (∀ (s₃ : EvalState) (rvar : Nat),
        resolve_attr_path fuel (allocVar s₁ (.concrete v)).1 sc bt
            (allocVar s₁ (.concrete v)).2 path = (s₃, .ok rvar) →
        visit_expr (fuel + 1) s sc bt (.hasAttr e path) =
          ((allocVal s₃ (.bool true)).1, .ok (allocVal s₃ (.bool true)).2)) ∧
    (∀ (s₃ : EvalState) (er : NixError),
        resolve_attr_path fuel (allocVar s₁ (.concrete v)).1 sc bt
            (allocVar s₁ (.concrete v)).2 path = (s₃, .err er) →
        visit_expr (fuel + 1) s sc bt (.hasAttr e path) =
          ((allocVal s₃ (.bool false)).1, .ok (allocVal s₃ (.bool false)).2)) := by
  constructor <;>
    · intro s₃ x hW
      rw [visit_expr_succ]
      simp only [visit_expr_step, fnsAt_visit_expr, fnsAt_resolve_attr_path, h, rbind]
      rw [show (allocVar s₁ (.concrete v)) =
            ((allocVar s₁ (.concrete v)).1, (allocVar s₁ (.concrete v)).2) from rfl]
      simp only [hW]

/-- C9, witness: `{ a = 1; } ? a` is `true` (the walk finds the member
thunk) and `{ } ? a` is `false` (the walk fails with `AttributeMissing`,
which is coerced, not surfaced). -/
theorem c9_hasattr_coercion_witness :
    visit_expr 51 boot.1 boot.2 bt0 (.hasAttr (.attrSet false [intBinding "a" 1]) [.ident "a"]) =
      ((allocVal (resolve_attr_path 50
          (allocVar (visit_expr 50 boot.1 boot.2 bt0 (.attrSet false [intBinding "a" 1])).1 (.concrete 6)).1
          boot.2 bt0
          (allocVar (visit_expr 50 boot.1 boot.2 bt0 (.attrSet false [intBinding "a" 1])).1 (.concrete 6)).2
          [.ident "a"]).1 (.bool true)).1,
       .ok (allocVal (resolve_attr_path 50
          (allocVar (visit_expr 50 boot.1 boot.2 bt0 (.attrSet false [intBinding "a" 1])).1 (.concrete 6)).1
          boot.2 bt0
          (allocVar (visit_expr 50 boot.1 boot.2 bt0 (.attrSet false [intBinding "a" 1])).1 (.concrete 6)).2
          [.ident "a"]).1 (.bool true)).2) ∧
    visit_expr 51 boot.1 boot.2 bt0 (.hasAttr (.attrSet false []) [.ident "a"]) =
      ((allocVal (resolve_attr_path 50
          (allocVar (visit_expr 50 boot.1 boot.2 bt0 (.attrSet false [])).1 (.concrete 6)).1
          boot.2 bt0
          (allocVar (visit_expr 50 boot.1 boot.2 bt0 (.attrSet false [])).1 (.concrete 6)).2
          [.ident "a"]).1 (.bool false)).1,
       .ok (allocVal (resolve_attr_path 50
          (allocVar (visit_expr 50 boot.1 boot.2 bt0 (.attrSet false [])).1 (.concrete 6)).1
          boot.2 bt0
          (allocVar (visit_expr 50 boot.1 boot.2 bt0 (.attrSet false [])).1 (.concrete 6)).2
          [.ident "a"]).1 (.bool false)).2) :=
  ⟨(c9_hasattr_coercion 50 boot.1 boot.2 bt0 (.attrSet false [intBinding "a" 1]) [.ident "a"]
      (visit_expr 50 boot.1 boot.2 bt0 (.attrSet false [intBinding "a" 1])).1 6 rfl).1
      _ 4 rfl,
   (c9_hasattr_coercion 50 boot.1 boot.2 bt0 (.attrSet false []) [.ident "a"]
      (visit_expr 50 boot.1 boot.2 bt0 (.attrSet false [])).1 6 rfl).2
      _ (bt0.to_labeled_error [⟨.ofAttr (.ident "a"), .attributeMissing, .error⟩]
          "Attribute '\x1b[1;95ma\x1b[0m' missing") rfl⟩

/-- C10: a force that hits a cell in the `Resolving` state fails with the
infinite-recursion error and leaves the heap unchanged — it neither
retries the suspended expression (the cell no longer holds one) nor
reproduces any earlier error.  Concretely, for
`let x = throw "A"; in [ x x ]`: the first deep force fails with the
original `throw` error `"A"` and leaves both the binding's cell (4) and
the first element's cell (5) in `Resolving`; the second deep force of
the same value fails with the infinite-recursion error instead. -/
theorem c10_failed_force_poisons :
    (∀ (fuel : Nat) (s : EvalState) (bt : NixBacktrace) (vid : Nat)
        (btDef : NixBacktrace),
        getVar s vid = some (.resolving btDef) →
        resolve (fuel + 1) s bt vid =
          (s, .err
            { message := "Infinite recursion detected. Tried to get a value that is resolving"
              labels := [⟨btDef.span, .empty, .error⟩,
                         ⟨bt.span, .custom "Called from here", .help⟩]
              backtrace := btDef.parent })) ∧
    errMessage c10first.2 = some "A" ∧
    isResolvingVar c10first.1 4 = true ∧
    isResolvingVar c10first.1 5 = true ∧
    errMessage c10second.2 =
      some "Infinite recursion detected. Tried to get a value that is resolving" := by
  refine ⟨?_, rfl, rfl, rfl, rfl⟩
  intro fuel s bt vid btDef h
  rw [resolve_succ]
  unfold resolve_step
  rw [h]

/-- A one-cell heap whose only thunk is stuck in `Resolving`, for the C10
witness. -/
def c10state : EvalState :=
  { vals := []
    vars := [(0, .resolving bt0)]
    nextVal := 0
    nextVar := 1 }

/-- C10, witness: forcing the stuck cell of `c10state` fails with the
infinite-recursion error and leaves the heap unchanged. -/
theorem c10_failed_force_poisons_witness :
    resolve 4 c10state bt0 0 =
      (c10state, .err
        { message := "Infinite recursion detected. Tried to get a value that is resolving"
          labels := [⟨.root, .empty, .error⟩, ⟨.root, .custom "Called from here", .help⟩]
          backtrace := none }) :=
  c10_failed_force_poisons.1 3 c10state bt0 0 bt0 rfl

end NixCompiler
